import Mathlib

/-!
Verification of the range-aware derivation engine of the battery run-time
calculator.  The JavaScript source (src/js/app.js and the DfCost/DfTime
page script) is shallowly embedded over the rationals: JavaScript numbers
are modelled as exact rationals, `Math.round` as Mathlib's `round`
(both round half toward positive infinity), `Math.ceil` as `Int.ceil`,
absent / empty-string / NaN values as `Option`, and the DOM-backed
mutable state as explicit state records with step functions.
-/

namespace BattCalc

/-- Rounding helper `rd1` from app.js line 1212 and part_003 line 2190:
`v => Math.round(v * 10) / 10`. -/
def rd1 (v : ℚ) : ℚ := ((round (v * 10) : ℤ) : ℚ) / 10

/-- Rounding helper `rd2` from part_003 lines 1946 and 2308:
`v => Math.round(v * 100) / 100`. -/
def rd2 (v : ℚ) : ℚ := ((round (v * 100) : ℤ) : ℚ) / 100

/-- The per-cell conversion constant 3.6 appearing throughout the source
(`N * 3.6 * C / 1000` and its inverses). -/
def kCell : ℚ := 36 / 10

/-- JavaScript `Math.min(...xs)` over a list of candidates.  The empty case
never occurs in the source (the candidate list always contains the nominal
pair); `0` is an arbitrary placeholder for it. -/
def jsMin : List ℚ → ℚ
  | [] => 0
  | x :: xs => xs.foldl min x

/-- JavaScript `Math.max(...xs)` over a list of candidates. -/
def jsMax : List ℚ → ℚ
  | [] => 0
  | x :: xs => xs.foldl max x

/-!
Run-time candidate solver `calcRunTime` (app.js lines 1183-1229).

Inputs are the already-parsed field values: `n` mirrors `parseInt(N)`,
`c` and `l` mirror `parseFloat` of the nominal capacity and of the load
summary span, and the four optional extremes are `none` for an empty,
dash or NaN entry (the source tests `!== ''`, `!== '—'` and `!isNaN`).
-/

/-- Set `eSet` built at app.js lines 1198-1202: nominal energy first, then
`Emin`/`Emax` from `Cmin`/`Cmax` when they hold a value greater than zero. -/
def eSet (n : ℤ) (c : ℚ) (cmin cmax : Option ℚ) : List ℚ :=
  [(n : ℚ) * kCell * c / 1000]
    ++ (match cmin with
        | some v => if 0 < v then [(n : ℚ) * kCell * v / 1000] else []
        | none => [])
    ++ (match cmax with
        | some v => if 0 < v then [(n : ℚ) * kCell * v / 1000] else []
        | none => [])

/-- Set `lSet` built at app.js lines 1205-1209: nominal load first, then
`Lmin`/`Lmax` when the summary spans hold a value greater than zero. -/
def lSet (l : ℚ) (lmin lmax : Option ℚ) : List ℚ :=
  [l]
    ++ (match lmin with
        | some v => if 0 < v then [v] else []
        | none => [])
    ++ (match lmax with
        | some v => if 0 < v then [v] else []
        | none => [])

/-- The full candidate list of app.js lines 1213-1218: every `(Ei/Lj)*60`,
each rounded to one decimal place as it is pushed. -/
def runTimeCands (n : ℤ) (c : ℚ) (cmin cmax : Option ℚ)
    (l : ℚ) (lmin lmax : Option ℚ) : List ℚ :=
  (eSet n c cmin cmax).flatMap (fun e =>
    (lSet l lmin lmax).map (fun lv => rd1 (e / lv * 60)))

/-- Result record of `calcRunTime`: the source returns strings with `''`
for an absent value; `none` models `''`. -/
structure RunTimeResult where
  T : Option ℚ
  Tmin : Option ℚ
  Tmax : Option ℚ
deriving DecidableEq, Repr

/-- Embedding of `calcRunTime` (app.js lines 1183-1229).  The three guard
lines mirror `n < 1 || n > 8`, `c < 100 || c > 8000` and `l <= 0`; a
non-integer or NaN parse is outside this embedding's input space. -/
def calcRunTime (n : ℤ) (c : ℚ) (cmin cmax : Option ℚ)
    (l : ℚ) (lmin lmax : Option ℚ) : RunTimeResult :=
  if n < 1 ∨ 8 < n then ⟨none, none, none⟩
  else if c < 100 ∨ 8000 < c then ⟨none, none, none⟩
  else if l ≤ 0 then ⟨none, none, none⟩
  else
    let E := (n : ℚ) * kCell * c / 1000
    let tNom := E / l * 60
    let cands := runTimeCands n c cmin cmax l lmin lmax
    let T := rd1 tNom
    let minC := jsMin cands
    let maxC := jsMax cands
    ⟨some T, if minC < T then some minC else none,
      if T < maxC then some maxC else none⟩

/-!
Pack-sizing resolvers of the DfCost page (`dcUpdateResolveCard`,
part_003 lines 2015-2098) and of the DfTime load path (`dtUpdateResult`,
part_003 lines 2343-2384).
-/

/-- Required cell capacity from part_003 lines 2030/2036: the user gave
the cell count, so `C_nom = rd0(E * 1000 / (N * 3.6))` where
`rd0 = v => Math.round(v)` rounds to nearest, not up. -/
def dcResolveCapNom (E : ℚ) (N : ℤ) : ℤ := round (E * 1000 / ((N : ℚ) * kCell))

/-- Required cell count from part_003 line 2058: the user gave the
capacity, so `N_nom = Math.ceil(E * 1000 / (3.6 * C))`. -/
def dcResolveCellsNom (E : ℚ) (C : ℚ) : ℤ := ⌈E * 1000 / (kCell * C)⌉

/-- Secondary (footnote) cell-count figure stored in the debug panel,
part_003 lines 2090-2092: the raw quotient rounded to two decimals,
`Math.round(nnRawDc * 100) / 100`. -/
def dcResolveCellsNN (E : ℚ) (C : ℚ) : ℚ := rd2 (E * 1000 / (kCell * C))

/-- Capacity computed by the DfTime load path, part_003 line 2345:
`Math.round(E * 1000 / (nV * 3.6))`. -/
def dtComputedC (E : ℚ) (nV : ℤ) : ℤ := round (E * 1000 / ((nV : ℚ) * kCell))

/-- Cell count computed by the DfTime load path, part_003 lines 2362-2363:
`Math.ceil(E * 1000 / (3.6 * cV))`. -/
def dtComputedN (E : ℚ) (cV : ℚ) : ℤ := ⌈E * 1000 / (kCell * cV)⌉

/-!
DfTime time-mode solver (`dtUpdateResult`, `dtMode === 'time'` branch,
part_003 lines 2198-2294): given the PACK energy and the TIME entries,
solve the allowed load.  Version 1.2 of this screen computes
`Lmax = Emin / Tmax * 60` from the single pair of a min-side energy and a
max-side time, and shows it only when it is below the nominal load.
-/

/-- Value `Emin` of part_003 lines 2208-2210: energy from `Cmin` when that
field is error-free, parseable and positive, else the nominal energy. -/
def dtEmin (nv : ℤ) (cv : ℚ) (cmin : Option ℚ) : ℚ :=
  match cmin with
  | some v => if 0 < v then (nv : ℚ) * kCell * v / 1000 else (nv : ℚ) * kCell * cv / 1000
  | none => (nv : ℚ) * kCell * cv / 1000

/-- Value `Tmax` of part_003 lines 2213-2216: the read-only computed
maximum run time when present and above the nominal, else the nominal. -/
def dtTmaxEff (t : ℚ) (tmax : Option ℚ) : ℚ :=
  match tmax with
  | some v => if t < v then v else t
  | none => t

/-- What the dt-output-card shows: the five textContent prompts, the
time-mode "Load Allowed" row, and the load-mode "Pack Solution" /
energy-only renders of part_003 lines 2185-2384. -/
inductive DtDisplay
  | hidden
  | enterNC
  | enterTimeForLoad
  | enterLoadForEnergy
  | enterTimeForEnergy
  | loadAllowed (L : ℚ) (lmaxShown : Option ℚ)
  | packSolutionFromN (E Emax : ℚ) (cells : ℤ) (cap : ℤ)
  | packSolutionFromC (E Emax : ℚ) (cells : ℤ) (cap : ℚ)
  | energyOnly (E Emax : ℚ)
deriving DecidableEq, Repr

/-- The `dtMode === 'time'` branch of `dtUpdateResult` (part_003 lines
2198-2278) as a function of the parsed field values.  The `cmax` argument
mirrors `dtInputCmax`, which this branch reads only for the debug panel:
it does not enter the rendered result. -/
def dtTimeDisplay (n : Option ℤ) (c : Option ℚ) (cmin cmax : Option ℚ)
    (tNom tmax : Option ℚ) : DtDisplay :=
  match n, c with
  | some nv, some cv =>
      if nv < 1 ∨ 8 < nv ∨ cv < 100 ∨ 8000 < cv then .enterNC
      else
        match tNom with
        | none => .enterTimeForLoad
        | some t =>
            if t ≤ 0 then .enterTimeForLoad
            else
              let Enom := (nv : ℚ) * kCell * cv / 1000
              let L := rd1 (Enom * 60 / t)
              let Lmax := rd1 (dtEmin nv cv cmin * 60 / dtTmaxEff t tmax)
              .loadAllowed L (if Lmax < L then some Lmax else none)
  | _, _ => .enterNC

/-- Follows the spec's words, section 4.3, for the load-from-energy-and-time
relation: the candidate set is the full cross product of the present energy
values (nominal plus `Emin` from `Cmin` and `Emax` from `Cmax`) with the
present time values (nominal plus `Tmax`), each combined through
`L = E / T * 60` and rounded to the load precision.  Written for comparison
against the source's `dtTimeDisplay`, which does not enumerate this set. -/
def specCrossLoadCands (n : ℤ) (c : ℚ) (cmin cmax : Option ℚ)
    (tNom : ℚ) (tmax : Option ℚ) : List ℚ :=
  let A := [(n : ℚ) * kCell * c / 1000]
    ++ (match cmin with | some v => [(n : ℚ) * kCell * v / 1000] | none => [])
    ++ (match cmax with | some v => [(n : ℚ) * kCell * v / 1000] | none => [])
  let B := [tNom] ++ (match tmax with | some v => [v] | none => [])
  A.flatMap (fun e => B.map (fun t => rd1 (e * 60 / t)))

/-- Follows the spec's words, section 4.3 steps 2-5: nominal from the two
nominals, reported min and max from the full cross product, each present
only when strictly beyond the nominal. -/
def specCrossLoadReport (n : ℤ) (c : ℚ) (cmin cmax : Option ℚ)
    (tNom : ℚ) (tmax : Option ℚ) : ℚ × Option ℚ × Option ℚ :=
  let nominal := rd1 ((n : ℚ) * kCell * c / 1000 * 60 / tNom)
  let cands := specCrossLoadCands n c cmin cmax tNom tmax
  (nominal,
    if jsMin cands < nominal then some (jsMin cands) else none,
    if nominal < jsMax cands then some (jsMax cands) else none)

/-!
Per-card ownership resolver `tryAutoPopulateAll` (app.js lines 716-780).
-/

/-- One user-facing numeric load field: `value` is the parsed field text
(`none` for empty), `owner` the `loadFieldUserSet` flag, `auto` the
`auto-populated` CSS class, `err` whether a validation message is active,
and `lastValid` the `dataset.lastValid` revert cache. -/
structure LoadField where
  value : Option ℚ
  owner : Bool
  auto : Bool
  err : Bool
  lastValid : Option ℚ
deriving DecidableEq, Repr

/-- The three fields of one load card. -/
structure LoadCard where
  L : LoadField
  Lmin : LoadField
  Lmax : LoadField
deriving DecidableEq, Repr

/-- Source-value capture of app.js lines 724-729: a field contributes a
derivation source only when it is user-set, non-empty and error-free. -/
def srcVal (f : LoadField) : Option ℚ :=
  if f.owner ∧ ¬f.err then f.value else none

/-- Load precision formatter `fmtLoad` of app.js lines 732-736: values
above 20 W become whole numbers, others keep one decimal place. -/
def fmtLoad (v : ℚ) : ℚ := if 20 < v then ((round v : ℤ) : ℚ) else rd1 v

/-- Helper `autoSet` of app.js lines 739-745: write the formatted derived
value, mark the field auto-populated, sync `lastValid`, clear the error.
The ownership flag is untouched by the source and is copied through. -/
def autoSet (f : LoadField) (v : ℚ) : LoadField :=
  ⟨some (fmtLoad v), f.owner, true, false, some (fmtLoad v)⟩

/-- Helper `autoClear` of app.js lines 748-755: clear the field only when
it carries the auto-populated marker. -/
def autoClear (f : LoadField) : LoadField :=
  if f.auto then ⟨none, f.owner, false, false, none⟩ else f

/-- The `Auto-populate L` block of app.js lines 758-763: average when both
bounds are available, else the sole available bound, else clear. -/
def deriveNom (f : LoadField) (lminVal lmaxVal : Option ℚ) : LoadField :=
  if f.owner then f
  else
    match lminVal, lmaxVal with
    | some a, some b => autoSet f ((a + b) / 2)
    | some a, none => autoSet f a
    | none, some b => autoSet f b
    | none, none => autoClear f

/-- The `Auto-populate Lmin` block of app.js lines 766-770: the nominal
when available, else the other bound, else clear. -/
def deriveMin (f : LoadField) (lVal lmaxVal : Option ℚ) : LoadField :=
  if f.owner then f
  else
    match lVal, lmaxVal with
    | some a, _ => autoSet f a
    | none, some b => autoSet f b
    | none, none => autoClear f

/-- The `Auto-populate Lmax` block of app.js lines 773-777, mirror image
of the `Lmin` block. -/
def deriveMax (f : LoadField) (lVal lminVal : Option ℚ) : LoadField :=
  if f.owner then f
  else
    match lVal, lminVal with
    | some a, _ => autoSet f a
    | none, some b => autoSet f b
    | none, none => autoClear f

/-- Ownership resolver `tryAutoPopulateAll` for one load card (app.js
lines 716-780): the source captures the three source values first
(lines 724-729) and then runs the three auto-populate blocks, which only
ever write non-owner fields. -/
def tryAutoPopulateAll (card : LoadCard) : LoadCard :=
  let lVal := srcVal card.L
  let lminVal := srcVal card.Lmin
  let lmaxVal := srcVal card.Lmax
  ⟨deriveNom card.L lminVal lmaxVal,
    deriveMin card.Lmin lVal lmaxVal,
    deriveMax card.Lmax lVal lminVal⟩

/-!
Load card count management (app.js lines 624-625, 1093-1151, 1154-1165).
-/

/-- Maximum number of load cards, app.js line 624. -/
def LOAD_MAX : ℕ := 5

/-- Card-count effect of `addLoadCard` (app.js line 1094): a no-op once
`loadCount >= LOAD_MAX`, else one more card. -/
def addLoadCard (n : ℕ) : ℕ := if LOAD_MAX ≤ n then n else n + 1

/-- Card-count effect of `removeLastLoadCard` (app.js line 1155): a no-op
once `loadCount <= 1`, else one fewer card. -/
def removeLastLoadCard (n : ℕ) : ℕ := if n ≤ 1 then n else n - 1

/-- A click on a plus or minus load-card button. -/
inductive LoadOp
  | add
  | remove
deriving DecidableEq, Repr

/-- Effect of one card button on the card count. -/
def applyLoadOp : LoadOp → ℕ → ℕ
  | .add, n => addLoadCard n
  | .remove, n => removeLastLoadCard n

/-- Card count after a sequence of add / remove clicks. -/
def runLoadOps (ops : List LoadOp) (n : ℕ) : ℕ :=
  ops.foldl (fun m op => applyLoadOp op m) n

/-!
DfTime solve-path selector and session state (part_003 lines 2148-2975).
The screen-wide mutable variables (`dtPackLoadVisible`, `dtMode`, the
PACK / TIME inputs, the single load card and the dt-output-card render)
become one explicit state record; each blur listener becomes one event of
a step function.
-/

/-- The two solve paths of the DfTime screen (part_003 lines 2157-2160):
`'time'` is the L=f(E,T) path locked by a PACK entry, `'load'` the
E=f(T,L) path locked by a load entry. -/
inductive DtPath
  | time
  | load
deriving DecidableEq, Repr

/-- Session state of the DfTime screen.  `n`/`c`/`cmin`/`cmax` mirror the
dt PACK inputs with their disabled and ownership markers, `tNom`/`tmax`
the TIME card entries, `card` the single modelled load card, and
`display` the dt-output-card contents. -/
structure DtState where
  packLoadVisible : Bool
  mode : Option DtPath
  n : Option ℤ
  nDisabled : Bool
  c : Option ℚ
  cDisabled : Bool
  cmin : Option ℚ
  cminUserSet : Bool
  cminAuto : Bool
  cmax : Option ℚ
  cmaxUserSet : Bool
  cmaxAuto : Bool
  tNom : Option ℚ
  tmax : Option ℚ
  card : LoadCard
  display : DtDisplay
deriving DecidableEq, Repr

/-- LOAD summary span for the active card (`dtUpdateDtTotalRow`, part_003
lines 2756-2778): the per-field sum rounded to one decimal, which for the
single modelled card is the rounded field value, or a dash when empty. -/
def dtSummary (v : Option ℚ) : Option ℚ := v.map rd1

/-- A fresh, empty, non-owner field. -/
def dtEmptyField : LoadField := ⟨none, false, false, false, none⟩

/-- The fresh load card created by `dtAddLoadCard`. -/
def dtEmptyCard : LoadCard := ⟨dtEmptyField, dtEmptyField, dtEmptyField⟩

/-- Initial DfTime state: TIME card only, no lock, everything empty
(part_003 lines 2155-2160 and the dtResetPage defaults). -/
def dtInit : DtState :=
  ⟨false, none, none, false, none, false, none, false, false,
    none, false, false, none, none, dtEmptyCard, .hidden⟩

/-- The `nOk` test of part_003 lines 2317-2318: N parses to an integer in
1..8 with no active error. -/
def dtNOk (s : DtState) : Option ℤ :=
  match s.n with
  | some nv => if 1 ≤ nv ∧ nv ≤ 8 then some nv else none
  | none => none

/-- The `cOkUser` test of part_003 lines 2320-2322: C counts as
user-entered only while its input is not disabled, parses into 100..8000
and has no active error. -/
def dtCOkUser (s : DtState) : Option ℚ :=
  if s.cDisabled then none
  else
    match s.c with
    | some cv => if 100 ≤ cv ∧ cv ≤ 8000 then some cv else none
    | none => none

/-- Recompute-and-render `dtUpdateResult` (part_003 lines 2185-2386).
The time branch delegates to `dtTimeDisplay`; the load branch computes
`E`/`Emax`, resolves N or C — disabling and overwriting the opposite
input — or renders the energy-only prompt. -/
def dtUpdateResult (s : DtState) : DtState :=
  match s.mode with
  | none => { s with display := .hidden }
  | some .time =>
      { s with display := dtTimeDisplay s.n s.c s.cmin s.cmax s.tNom s.tmax }
  | some .load =>
      match dtSummary s.card.L.value with
      | none => { s with display := .enterLoadForEnergy }
      | some l =>
          if l ≤ 0 then { s with display := .enterLoadForEnergy }
          else
            match s.tNom with
            | none => { s with display := .enterTimeForEnergy }
            | some t =>
                if t ≤ 0 then { s with display := .enterTimeForEnergy }
                else
                  let E := rd2 (l * t / 60)
                  let Lmax :=
                    match dtSummary s.card.Lmax.value with
                    | some v => if 0 < v then v else l
                    | none => l
                  let Emax := rd2 (Lmax * t / 60)
                  match dtNOk s with
                  | some nv =>
                      { s with cDisabled := true,
                               c := some ((dtComputedC E nv : ℤ) : ℚ),
                               display := .packSolutionFromN E Emax nv (dtComputedC E nv) }
                  | none =>
                      match dtCOkUser s with
                      | some cv =>
                          { s with nDisabled := true,
                                   n := some (dtComputedN E cv),
                                   display := .packSolutionFromC E Emax (dtComputedN E cv) cv }
                      | none =>
                          { s with nDisabled := false, cDisabled := false,
                                   display := .energyOnly E Emax }

/-- Solve-path lock `dtSetMode` (part_003 lines 2172-2180): set the mode
on the first call and recompute; every later call is ignored. -/
def dtSetMode (m : DtPath) (s : DtState) : DtState :=
  match s.mode with
  | some _ => s
  | none => dtUpdateResult { s with mode := some m }

/-- Auto-seed of `Cmin`/`Cmax` from `C` (`tryAutoPopulateDtPack`,
part_003 lines 2413-2441): a non-user-set bound copies a valid `C`, or is
cleared when it was auto-populated and `C` became empty. -/
def tryAutoPopulateDtPack (s : DtState) : DtState :=
  let s1 :=
    if s.cminUserSet then s
    else
      match s.c with
      | some _ => { s with cmin := s.c, cminAuto := true }
      | none => if s.cminAuto then { s with cmin := none, cminAuto := false } else s
  if s1.cmaxUserSet then s1
  else
    match s1.c with
    | some _ => { s1 with cmax := s1.c, cmaxAuto := true }
    | none => if s1.cmaxAuto then { s1 with cmax := none, cmaxAuto := false } else s1

/-- The `if (dtMode !== null) dtUpdateResult()` line closing every PACK
blur listener. -/
def dtRecomputeIfLocked (s : DtState) : DtState :=
  match s.mode with
  | some _ => dtUpdateResult s
  | none => s

/-- The `if (dtMode === 'load') dtUpdateResult()` line closing every load
blur listener. -/
def dtRecomputeIfLoad (s : DtState) : DtState :=
  if s.mode = some DtPath.load then dtUpdateResult s else s

/-- Shared tail of the four PACK blur listeners (part_003 lines 2534-2593):
nothing more happens before the reveal; a non-empty value locks Path A;
any lock triggers a recompute. -/
def dtPackBlurTail (entered : Bool) (s : DtState) : DtState :=
  if ¬s.packLoadVisible then s
  else dtRecomputeIfLocked (if entered then dtSetMode .time s else s)

/-- Shared tail of the three load blur listeners (part_003 lines
2792-2844): a non-empty value after the reveal locks Path B; a recompute
runs only while the load path is locked. -/
def dtLoadBlurTail (entered : Bool) (s : DtState) : DtState :=
  dtRecomputeIfLoad (if entered ∧ s.packLoadVisible then dtSetMode .load s else s)

/-- Blur-level update of one load field: the validated value is committed
with `lastValid`, ownership follows non-emptiness (input listener), the
auto marker is dropped on a typed value, the error is cleared. -/
def dtFieldCommit (f : LoadField) (v : Option ℚ) : LoadField :=
  ⟨v, v.isSome, if v.isSome then false else f.auto, false, v⟩

/-- The DfTime part of `dtTryAutoPopulateAll` (part_003 lines 2690-2743),
which repeats the app.js per-card resolver verbatim. -/
def dtTryAutoPopulateAll (card : LoadCard) : LoadCard := tryAutoPopulateAll card

/-- One field-blur or reset event on the DfTime screen.  Each payload is
the validated parsed value the field holds after `blurValidate`
(`none` for an empty field); invalid entries are reverted by the source
before any of the modelled steps run. -/
inductive DtEvent
  | tBlur (v : Option ℚ)
  | nBlur (v : Option ℤ)
  | cBlur (v : Option ℚ)
  | cminBlur (v : Option ℚ)
  | cmaxBlur (v : Option ℚ)
  | lBlur (v : Option ℚ)
  | lminBlur (v : Option ℚ)
  | lmaxBlur (v : Option ℚ)
  | reset
deriving DecidableEq, Repr

/-- Page reset `dtResetPage` (part_003 lines 2919-2972): hides the cards,
clears the lock and every field, re-enables N and C and recreates the
fresh load card — exactly the initial state. -/
def dtResetPage (s : DtState) : DtState := dtInit

/-- One step of the DfTime screen: the body of the matching blur listener
(part_003 lines 506-518, 2534-2593, 2792-2844) or of `dtResetPage`.
A disabled input cannot receive focus, so its blur event leaves the state
unchanged. -/
def dtStep : DtEvent → DtState → DtState
  | .tBlur v, s =>
      let s1 := { s with tNom := v }
      if v.isSome then { s1 with packLoadVisible := true } else s1
  | .nBlur v, s =>
      if s.nDisabled then s
      else dtPackBlurTail v.isSome { s with n := v }
  | .cBlur v, s =>
      if s.cDisabled then s
      else dtPackBlurTail v.isSome (tryAutoPopulateDtPack { s with c := v })
  | .cminBlur v, s =>
      let s1 := tryAutoPopulateDtPack
        { s with cmin := v, cminUserSet := v.isSome,
                 cminAuto := if v.isSome then false else s.cminAuto }
      dtPackBlurTail s1.cmin.isSome s1
  | .cmaxBlur v, s =>
      let s1 := tryAutoPopulateDtPack
        { s with cmax := v, cmaxUserSet := v.isSome,
                 cmaxAuto := if v.isSome then false else s.cmaxAuto }
      dtPackBlurTail s1.cmax.isSome s1
  | .lBlur v, s =>
      let card1 := dtTryAutoPopulateAll { s.card with L := dtFieldCommit s.card.L v }
      dtLoadBlurTail card1.L.value.isSome { s with card := card1 }
  | .lminBlur v, s =>
      let card1 := dtTryAutoPopulateAll { s.card with Lmin := dtFieldCommit s.card.Lmin v }
      dtLoadBlurTail card1.Lmin.value.isSome { s with card := card1 }
  | .lmaxBlur v, s =>
      let card1 := dtTryAutoPopulateAll { s.card with Lmax := dtFieldCommit s.card.Lmax v }
      dtLoadBlurTail card1.Lmax.value.isSome { s with card := card1 }
  | .reset, s => dtResetPage s

/-!
Helper lemmas about the JavaScript min / max folds and the rounding
helpers.
-/

theorem foldl_min_le_init (xs : List ℚ) (a : ℚ) : xs.foldl min a ≤ a := by
  induction xs generalizing a with
  | nil => exact le_refl a
  | cons y ys ih => exact le_trans (ih (min a y)) (min_le_left a y)

theorem foldl_min_le_mem (xs : List ℚ) (a y : ℚ) (hy : y ∈ xs) :
    xs.foldl min a ≤ y := by
  induction xs generalizing a with
  | nil => cases hy
  | cons z zs ih =>
      rcases List.mem_cons.mp hy with h | h
      · subst h
        exact le_trans (foldl_min_le_init zs (min a y)) (min_le_right a y)
      · exact ih (min a z) h

theorem foldl_min_mem (xs : List ℚ) (a : ℚ) :
    xs.foldl min a = a ∨ xs.foldl min a ∈ xs := by
  induction xs generalizing a with
  | nil => exact Or.inl rfl
  | cons y ys ih =>
      rcases ih (min a y) with h | h
      · rcases min_cases a y with ⟨hm, _⟩ | ⟨hm, _⟩
        · exact Or.inl (by rw [List.foldl_cons, h, hm])
        · exact Or.inr (by rw [List.foldl_cons, h, hm]; exact List.mem_cons_self y ys)
      · exact Or.inr (List.mem_cons_of_mem y h)

theorem jsMin_mem (xs : List ℚ) (h : xs ≠ []) : jsMin xs ∈ xs := by
  cases xs with
  | nil => exact absurd rfl h
  | cons x t =>
      rcases foldl_min_mem t x with h1 | h1
      · rw [jsMin, h1]; exact List.mem_cons_self x t
      · exact List.mem_cons_of_mem x (by rw [jsMin]; exact h1)

theorem jsMin_le (xs : List ℚ) (y : ℚ) (hy : y ∈ xs) : jsMin xs ≤ y := by
  cases xs with
  | nil => cases hy
  | cons x t =>
      rcases List.mem_cons.mp hy with h | h
      · subst h; exact foldl_min_le_init t y
      · exact foldl_min_le_mem t x y h

theorem init_le_foldl_max (xs : List ℚ) (a : ℚ) : a ≤ xs.foldl max a := by
  induction xs generalizing a with
  | nil => exact le_refl a
  | cons y ys ih => exact le_trans (le_max_left a y) (ih (max a y))

theorem mem_le_foldl_max (xs : List ℚ) (a y : ℚ) (hy : y ∈ xs) :
    y ≤ xs.foldl max a := by
  induction xs generalizing a with
  | nil => cases hy
  | cons z zs ih =>
      rcases List.mem_cons.mp hy with h | h
      · subst h
        exact le_trans (le_max_right a y) (init_le_foldl_max zs (max a y))
      · exact ih (max a z) h

theorem foldl_max_mem (xs : List ℚ) (a : ℚ) :
    xs.foldl max a = a ∨ xs.foldl max a ∈ xs := by
  induction xs generalizing a with
  | nil => exact Or.inl rfl
  | cons y ys ih =>
      rcases ih (max a y) with h | h
      · rcases max_cases a y with ⟨hm, _⟩ | ⟨hm, _⟩
        · exact Or.inl (by rw [List.foldl_cons, h, hm])
        · exact Or.inr (by rw [List.foldl_cons, h, hm]; exact List.mem_cons_self y ys)
      · exact Or.inr (List.mem_cons_of_mem y h)

theorem jsMax_mem (xs : List ℚ) (h : xs ≠ []) : jsMax xs ∈ xs := by
  cases xs with
  | nil => exact absurd rfl h
  | cons x t =>
      rcases foldl_max_mem t x with h1 | h1
      · rw [jsMax, h1]; exact List.mem_cons_self x t
      · exact List.mem_cons_of_mem x (by rw [jsMax]; exact h1)

theorem le_jsMax (xs : List ℚ) (y : ℚ) (hy : y ∈ xs) : y ≤ jsMax xs := by
  cases xs with
  | nil => cases hy
  | cons x t =>
      rcases List.mem_cons.mp hy with h | h
      · subst h; exact init_le_foldl_max t y
      · exact mem_le_foldl_max t x y h

theorem rd1_idem (x : ℚ) : rd1 (rd1 x) = rd1 x := by
  unfold rd1
  have h : ((round (x * 10) : ℤ) : ℚ) / 10 * 10 = ((round (x * 10) : ℤ) : ℚ) := by
    field_simp
  rw [h, round_intCast]

/-!
Claim theorems.
-/

/-- Claim C4: for N = 7 cells, C = 2000 mAh nominal with Cmin and Cmax
absent, and load 10 W nominal with Lmin = 8 and Lmax = 12 present, the
run-time solver reports nominal T = 302.4 min, Tmin = 252.0 (present,
below nominal) and Tmax = 378.0 (present, above nominal), computed via
E = 7 * 3.6 * 2000 / 1000 = 50.4 Wh and T = E / L * 60. -/
theorem c4_runtime_scenario :
    calcRunTime 7 2000 none none 10 (some 8) (some 12) =
      ⟨some (1512 / 5), some 252, some 378⟩ ∧
    (7 : ℚ) * kCell * 2000 / 1000 = 252 / 5 ∧
    (252 : ℚ) < 1512 / 5 ∧ (1512 : ℚ) / 5 < 378 := by
  refine ⟨?_, by norm_num [kCell], by norm_num, by norm_num⟩
  norm_num [calcRunTime, runTimeCands, eSet, lSet, kCell, rd1, jsMin, jsMax,
    round_eq, min_def, max_def, List.flatMap]

theorem applyLoadOp_bounds (op : LoadOp) (n : ℕ) (h1 : 1 ≤ n)
    (h5 : n ≤ LOAD_MAX) :
    1 ≤ applyLoadOp op n ∧ applyLoadOp op n ≤ LOAD_MAX := by
  cases op with
  | add =>
      simp only [applyLoadOp, addLoadCard, LOAD_MAX] at h5 ⊢
      split <;> omega
  | remove =>
      simp only [applyLoadOp, removeLastLoadCard, LOAD_MAX] at h5 ⊢
      split <;> omega

theorem runLoadOps_bounds (ops : List LoadOp) (n : ℕ) (h1 : 1 ≤ n)
    (h5 : n ≤ LOAD_MAX) :
    1 ≤ runLoadOps ops n ∧ runLoadOps ops n ≤ LOAD_MAX := by
  induction ops generalizing n with
  | nil => exact ⟨h1, h5⟩
  | cons op rest ih =>
      have h := applyLoadOp_bounds op n h1 h5
      simpa [runLoadOps] using ih (applyLoadOp op n) h.1 h.2

/-- Claim C10: starting from initialisation (the page-load `addLoadCard()`
call on an empty container), no sequence of add / remove clicks can drive
the load-card count outside 1..5: `addLoadCard` is a no-op at 5 and
`removeLastLoadCard` is a no-op at 1. -/
theorem c10_load_card_count_invariant (ops : List LoadOp) :
    1 ≤ runLoadOps ops (addLoadCard 0) ∧
      runLoadOps ops (addLoadCard 0) ≤ LOAD_MAX :=
  runLoadOps_bounds ops (addLoadCard 0) (by decide) (by decide)

/-- Claim C1 counterexample: at required energy E = 12.5 Wh the
solve-for-capacity sub-case with N = 2 cells reports the round-to-nearest
value 1736, strictly below the ceiling 1737 the claim requires for both
sub-cases; and the secondary figure retained by the solve-for-count
sub-case at C = 2000 mAh is the two-decimal rounding 1.74, not the exact
unrounded quotient 125/72 = 1.7361... . -/
theorem c1_pack_sizing_ceiling_counterexample :
    dcResolveCapNom (25 / 2) 2 = 1736 ∧
    (⌈(25 / 2 : ℚ) * 1000 / ((2 : ℚ) * kCell)⌉ : ℤ) = 1737 ∧
    dcResolveCellsNN (25 / 2) 2000 = 87 / 50 ∧
    dcResolveCellsNN (25 / 2) 2000 ≠ (25 / 2 : ℚ) * 1000 / (kCell * 2000) := by
  refine ⟨by norm_num [dcResolveCapNom, kCell, round_eq], ?_,
    by norm_num [dcResolveCellsNN, rd2, kCell, round_eq],
    by norm_num [dcResolveCellsNN, rd2, kCell, round_eq]⟩
  rw [show ((25 / 2 : ℚ) * 1000 / ((2 : ℚ) * kCell)) = 15625 / 9 by
    norm_num [kCell]]
  rw [Int.ceil_eq_iff] <;> norm_num

/-- Claim C1 amended: only the solve-for-count sub-case rounds up — the
reported cell count is never below the exact quotient, and for E = 12.5 Wh
with C = 2000 mAh both pack solvers report ceil(1.736...) = 2 cells while
retaining the quotient rounded to two decimals (1.74) as the secondary
footnote figure; the solve-for-capacity sub-case rounds to nearest and
can fall below the exact quotient. -/
theorem c1_pack_sizing_rounding_amended :
    (∀ E C : ℚ, E * 1000 / (kCell * C) ≤ (dcResolveCellsNom E C : ℚ)) ∧
    dcResolveCellsNom (25 / 2) 2000 = 2 ∧
    dtComputedN (25 / 2) 2000 = 2 ∧
    dcResolveCellsNN (25 / 2) 2000 = 87 / 50 ∧
    (∃ (E : ℚ) (N : ℤ), 0 < E ∧ 0 < N ∧
      (dcResolveCapNom E N : ℚ) < E * 1000 / ((N : ℚ) * kCell)) := by
  have hceil : dcResolveCellsNom (25 / 2) 2000 = 2 := by
    unfold dcResolveCellsNom
    rw [show ((25 / 2 : ℚ) * 1000 / (kCell * 2000)) = 125 / 72 by
      norm_num [kCell]]
    rw [Int.ceil_eq_iff] <;> norm_num
  have hceil2 : dtComputedN (25 / 2) 2000 = 2 := by
    unfold dtComputedN
    rw [show ((25 / 2 : ℚ) * 1000 / (kCell * 2000)) = 125 / 72 by
      norm_num [kCell]]
    rw [Int.ceil_eq_iff] <;> norm_num
  refine ⟨fun E C => Int.le_ceil _, hceil, hceil2,
    by norm_num [dcResolveCellsNN, rd2, kCell, round_eq],
    25 / 2, 2, by norm_num, by norm_num, ?_⟩
  have h : dcResolveCapNom (25 / 2) 2 = 1736 := by
    norm_num [dcResolveCapNom, kCell, round_eq]
  rw [h]
  norm_num [kCell]

/-- Claim C9: every run-time candidate is rounded to one decimal place
before the extremes are taken — each member of the candidate list is a
fixed point of `rd1` — and the presence tests compare these rounded
extremes with the rounded nominal, so a true spread that vanishes under
one-decimal rounding (N = 1, C = 2000, Cmin = 1999, L = 10) yields absent
reported min and max. -/
theorem c9_rounded_before_extremes :
    (∀ (n : ℤ) (c : ℚ) (cmin cmax : Option ℚ) (l : ℚ) (lmin lmax : Option ℚ)
        (x : ℚ), x ∈ runTimeCands n c cmin cmax l lmin lmax → rd1 x = x) ∧
    calcRunTime 1 2000 (some 1999) none 10 none none =
      ⟨some (216 / 5), none, none⟩ ∧
    (1 : ℚ) * kCell * 1999 / 1000 / 10 * 60 ≠
      (1 : ℚ) * kCell * 2000 / 1000 / 10 * 60 ∧
    rd1 ((1 : ℚ) * kCell * 1999 / 1000 / 10 * 60) =
      rd1 ((1 : ℚ) * kCell * 2000 / 1000 / 10 * 60) := by
  refine ⟨?_,
    by norm_num [calcRunTime, runTimeCands, eSet, lSet, kCell, rd1, jsMin,
      jsMax, round_eq, min_def, max_def, List.flatMap],
    by norm_num [kCell], by norm_num [rd1, kCell, round_eq]⟩
  intro n c cmin cmax l lmin lmax x hx
  simp only [runTimeCands, List.mem_flatMap, List.mem_map] at hx
  obtain ⟨e, _, lv, _, rfl⟩ := hx
  exact rd1_idem _

/-- Claim C9 witness: the candidate 252 of the C4 scenario inputs is
already a fixed point of one-decimal rounding. -/
theorem c9_rounded_before_extremes_witness :
    (252 : ℚ) ∈ runTimeCands 7 2000 none none 10 (some 8) (some 12) ∧
    rd1 252 = 252 :=
  ⟨by norm_num [runTimeCands, eSet, lSet, kCell, rd1, round_eq, List.flatMap],
    c9_rounded_before_extremes.1 7 2000 none none 10 (some 8) (some 12) 252
      (by norm_num [runTimeCands, eSet, lSet, kCell, rd1, round_eq,
        List.flatMap])⟩

theorem autoClear_owner (f : LoadField) : (autoClear f).owner = f.owner := by
  unfold autoClear
  split <;> rfl

theorem autoClear_autoClear (f : LoadField) :
    autoClear (autoClear f) = autoClear f := by
  rcases f with ⟨v, o, a, e, lv⟩
  cases a <;> simp [autoClear]

theorem deriveNom_owner (f : LoadField) (a b : Option ℚ) :
    (deriveNom f a b).owner = f.owner := by
  unfold deriveNom
  split
  · rfl
  · cases a <;> cases b <;> simp [autoSet, autoClear_owner]

theorem deriveMin_owner (f : LoadField) (a b : Option ℚ) :
    (deriveMin f a b).owner = f.owner := by
  unfold deriveMin
  split
  · rfl
  · cases a <;> cases b <;> simp [autoSet, autoClear_owner]

theorem deriveMax_owner (f : LoadField) (a b : Option ℚ) :
    (deriveMax f a b).owner = f.owner := by
  unfold deriveMax
  split
  · rfl
  · cases a <;> cases b <;> simp [autoSet, autoClear_owner]

theorem srcVal_of_not_owner (f : LoadField) (h : f.owner = false) :
    srcVal f = none := by
  simp [srcVal, h]

theorem srcVal_deriveNom (f : LoadField) (a b : Option ℚ) :
    srcVal (deriveNom f a b) = srcVal f := by
  cases h : f.owner
  · rw [srcVal_of_not_owner _ (by rw [deriveNom_owner]; exact h),
      srcVal_of_not_owner f h]
  · simp [deriveNom, h]

theorem srcVal_deriveMin (f : LoadField) (a b : Option ℚ) :
    srcVal (deriveMin f a b) = srcVal f := by
  cases h : f.owner
  · rw [srcVal_of_not_owner _ (by rw [deriveMin_owner]; exact h),
      srcVal_of_not_owner f h]
  · simp [deriveMin, h]

theorem srcVal_deriveMax (f : LoadField) (a b : Option ℚ) :
    srcVal (deriveMax f a b) = srcVal f := by
  cases h : f.owner
  · rw [srcVal_of_not_owner _ (by rw [deriveMax_owner]; exact h),
      srcVal_of_not_owner f h]
  · simp [deriveMax, h]

theorem deriveNom_idem (f : LoadField) (a b : Option ℚ) :
    deriveNom (deriveNom f a b) a b = deriveNom f a b := by
  cases h : f.owner
  · cases a <;> cases b <;>
      simp [deriveNom, h, autoSet, autoClear_autoClear, autoClear_owner]
  · simp [deriveNom, h]

theorem deriveMin_idem (f : LoadField) (a b : Option ℚ) :
    deriveMin (deriveMin f a b) a b = deriveMin f a b := by
  cases h : f.owner
  · cases a <;> cases b <;>
      simp [deriveMin, h, autoSet, autoClear_autoClear, autoClear_owner]
  · simp [deriveMin, h]

theorem deriveMax_idem (f : LoadField) (a b : Option ℚ) :
    deriveMax (deriveMax f a b) a b = deriveMax f a b := by
  cases h : f.owner
  · cases a <;> cases b <;>
      simp [deriveMax, h, autoSet, autoClear_autoClear, autoClear_owner]
  · simp [deriveMax, h]

/-- Claim C8: the ownership resolver is idempotent — resolving a group a
second time with unchanged inputs returns exactly the field values of the
first resolution, because the derivation sources are owner fields and a
resolution never alters an owner field. -/
theorem c8_resolver_idempotent (card : LoadCard) :
    tryAutoPopulateAll (tryAutoPopulateAll card) = tryAutoPopulateAll card := by
  simp only [tryAutoPopulateAll]
  rw [srcVal_deriveNom, srcVal_deriveMin, srcVal_deriveMax,
    deriveNom_idem, deriveMin_idem, deriveMax_idem]

/-- Claim C7: resolving a group never alters an owner field — ownership
flags are preserved and the value, state and revert cache of every
user-asserted field pass through untouched; in particular a user-set
load nominal of 8 survives a resolve with both bounds present. -/
theorem c7_owner_fields_never_overwritten (card : LoadCard) :
    ((tryAutoPopulateAll card).L.owner = card.L.owner ∧
     (tryAutoPopulateAll card).Lmin.owner = card.Lmin.owner ∧
     (tryAutoPopulateAll card).Lmax.owner = card.Lmax.owner) ∧
    (card.L.owner = true → (tryAutoPopulateAll card).L = card.L) ∧
    (card.Lmin.owner = true → (tryAutoPopulateAll card).Lmin = card.Lmin) ∧
    (card.Lmax.owner = true → (tryAutoPopulateAll card).Lmax = card.Lmax) := by
  refine ⟨⟨?_, ?_, ?_⟩, ?_, ?_, ?_⟩
  · simp [tryAutoPopulateAll, deriveNom_owner]
  · simp [tryAutoPopulateAll, deriveMin_owner]
  · simp [tryAutoPopulateAll, deriveMax_owner]
  · intro h; simp [tryAutoPopulateAll, deriveNom, h]
  · intro h; simp [tryAutoPopulateAll, deriveMin, h]
  · intro h; simp [tryAutoPopulateAll, deriveMax, h]

/-- Claim C7 witness: with load nominal user-set to 8 and both bounds
owner-asserted at 5 and 15, resolving leaves the nominal field — value 8
included — unchanged. -/
theorem c7_owner_fields_never_overwritten_witness :
    (tryAutoPopulateAll
        ⟨⟨some 8, true, false, false, some 8⟩,
         ⟨some 5, true, false, false, some 5⟩,
         ⟨some 15, true, false, false, some 15⟩⟩).L =
      ⟨some 8, true, false, false, some 8⟩ :=
  (c7_owner_fields_never_overwritten
    ⟨⟨some 8, true, false, false, some 8⟩,
     ⟨some 5, true, false, false, some 5⟩,
     ⟨some 15, true, false, false, some 15⟩⟩).2.1 rfl

/-- Claim C6: a non-owner load nominal is derived as the average of the
owner, error-free bounds when both are present, as the sole present bound
otherwise, and is absent when neither is present; concretely, from
owner-asserted min 5 and max 15 the nominal resolves to 10, after
clearing the min it resolves to 15, and after also clearing the max it is
absent. -/
theorem c6_derive_nominal_rules :
    (∀ (card : LoadCard) (a b : ℚ), card.L.owner = false →
        srcVal card.Lmin = some a → srcVal card.Lmax = some b →
        (tryAutoPopulateAll card).L.value = some (fmtLoad ((a + b) / 2))) ∧
    (∀ (card : LoadCard) (a : ℚ), card.L.owner = false →
        srcVal card.Lmin = some a → srcVal card.Lmax = none →
        (tryAutoPopulateAll card).L.value = some (fmtLoad a)) ∧
    (∀ (card : LoadCard) (b : ℚ), card.L.owner = false →
        srcVal card.Lmin = none → srcVal card.Lmax = some b →
        (tryAutoPopulateAll card).L.value = some (fmtLoad b)) ∧
    (∀ card : LoadCard, card.L.owner = false →
        srcVal card.Lmin = none → srcVal card.Lmax = none →
        (tryAutoPopulateAll card).L.value =
          (if card.L.auto then none else card.L.value)) ∧
    ((tryAutoPopulateAll
        ⟨⟨none, false, false, false, none⟩,
         ⟨some 5, true, false, false, some 5⟩,
         ⟨some 15, true, false, false, some 15⟩⟩).L.value = some 10 ∧
     (tryAutoPopulateAll
        { tryAutoPopulateAll
            ⟨⟨none, false, false, false, none⟩,
             ⟨some 5, true, false, false, some 5⟩,
             ⟨some 15, true, false, false, some 15⟩⟩ with
          Lmin := ⟨none, false, false, false, none⟩ }).L.value = some 15 ∧
     (tryAutoPopulateAll
        { tryAutoPopulateAll
            { tryAutoPopulateAll
                ⟨⟨none, false, false, false, none⟩,
                 ⟨some 5, true, false, false, some 5⟩,
                 ⟨some 15, true, false, false, some 15⟩⟩ with
              Lmin := ⟨none, false, false, false, none⟩ } with
          Lmax := ⟨none, false, false, false, none⟩ }).L.value = none) := by
  refine ⟨?_, ?_, ?_, ?_, ?_, ?_, ?_⟩
  · intro card a b h hmin hmax
    simp [tryAutoPopulateAll, deriveNom, h, hmin, hmax, autoSet]
  · intro card a h hmin hmax
    simp [tryAutoPopulateAll, deriveNom, h, hmin, hmax, autoSet]
  · intro card b h hmin hmax
    simp [tryAutoPopulateAll, deriveNom, h, hmin, hmax, autoSet]
  · intro card h hmin hmax
    rcases card with ⟨⟨v, o, a, e, lv⟩, fmin, fmax⟩
    simp at h
    subst h
    cases a <;> simp [tryAutoPopulateAll, deriveNom, hmin, hmax, autoClear]
  · norm_num [tryAutoPopulateAll, deriveNom, deriveMin, deriveMax, srcVal,
      autoSet, autoClear, fmtLoad, rd1, round_eq]
  · norm_num [tryAutoPopulateAll, deriveNom, deriveMin, deriveMax, srcVal,
      autoSet, autoClear, fmtLoad, rd1, round_eq]
  · norm_num [tryAutoPopulateAll, deriveNom, deriveMin, deriveMax, srcVal,
      autoSet, autoClear, fmtLoad, rd1, round_eq]

/-- Claim C6 witness: the average rule applied to owner bounds 5 and 15
with a non-owner nominal yields the formatted average 10. -/
theorem c6_derive_nominal_rules_witness :
    (tryAutoPopulateAll
        ⟨⟨none, false, false, false, none⟩,
         ⟨some 5, true, false, false, some 5⟩,
         ⟨some 15, true, false, false, some 15⟩⟩).L.value =
      some (fmtLoad ((5 + 15) / 2)) :=
  c6_derive_nominal_rules.1
    ⟨⟨none, false, false, false, none⟩,
     ⟨some 5, true, false, false, some 5⟩,
     ⟨some 15, true, false, false, some 15⟩⟩ 5 15 rfl
    (by simp [srcVal]) (by simp [srcVal])

theorem runTimeCands_ne_nil (n : ℤ) (c : ℚ) (cmin cmax : Option ℚ)
    (l : ℚ) (lmin lmax : Option ℚ) :
    runTimeCands n c cmin cmax l lmin lmax ≠ [] := by
  unfold runTimeCands eSet lSet
  simp [List.flatMap]

theorem calcRunTime_valid (n : ℤ) (c : ℚ) (cmin cmax : Option ℚ) (l : ℚ)
    (lmin lmax : Option ℚ) (h1 : 1 ≤ n) (h2 : n ≤ 8) (h3 : 100 ≤ c)
    (h4 : c ≤ 8000) (h5 : 0 < l) :
    calcRunTime n c cmin cmax l lmin lmax =
      ⟨some (rd1 ((n : ℚ) * kCell * c / 1000 / l * 60)),
        if jsMin (runTimeCands n c cmin cmax l lmin lmax) <
            rd1 ((n : ℚ) * kCell * c / 1000 / l * 60) then
          some (jsMin (runTimeCands n c cmin cmax l lmin lmax)) else none,
        if rd1 ((n : ℚ) * kCell * c / 1000 / l * 60) <
            jsMax (runTimeCands n c cmin cmax l lmin lmax) then
          some (jsMax (runTimeCands n c cmin cmax l lmin lmax)) else none⟩ := by
  unfold calcRunTime
  rw [if_neg (by omega), if_neg (by push_neg; exact ⟨h3, h4⟩),
    if_neg (not_le.mpr h5)]

/-- Claim C3 counterexample: the claim quantifies over every solver
result, but the DfTime time-mode solver shows the value 5.4 in the Max
slot of its result while 5.4 is strictly BELOW the nominal 21.6 (inputs
N=1, C=1000, Cmin=500, T=10, Tmax=20) — so a reported extreme can be
present without being the maximum of any candidate set or greater than
nominal, and min ≤ nominal ≤ max fails for that result. -/
theorem c3_reported_extremes_counterexample :
    dtTimeDisplay (some 1) (some 1000) (some 500) none (some 10) (some 20) =
      .loadAllowed (108 / 5) (some (27 / 5)) ∧
    (27 / 5 : ℚ) < 108 / 5 := by
  refine ⟨?_, by norm_num⟩
  norm_num [dtTimeDisplay, dtEmin, dtTmaxEff, kCell, rd1, round_eq]

/-- Claim C3 amended: in the run-time solver `calcRunTime` the claim
holds — a present reported min is the least candidate and strictly below
the rounded nominal, a present reported max is the greatest candidate and
strictly above it (hence min < nominal < max whenever both are present),
and an extreme not strictly beyond nominal is absent; the DfTime
time-mode result instead shows its single computed extreme in the Max
slot only when it is strictly BELOW the nominal. -/
theorem c3_reported_extremes_amended :
    (∀ (n : ℤ) (c : ℚ) (cmin cmax : Option ℚ) (l : ℚ) (lmin lmax : Option ℚ)
        (t m : ℚ), 1 ≤ n → n ≤ 8 → 100 ≤ c → c ≤ 8000 → 0 < l →
        (calcRunTime n c cmin cmax l lmin lmax).T = some t →
        (calcRunTime n c cmin cmax l lmin lmax).Tmin = some m →
        m ∈ runTimeCands n c cmin cmax l lmin lmax ∧
          (∀ x ∈ runTimeCands n c cmin cmax l lmin lmax, m ≤ x) ∧ m < t) ∧
    (∀ (n : ℤ) (c : ℚ) (cmin cmax : Option ℚ) (l : ℚ) (lmin lmax : Option ℚ)
        (t M : ℚ), 1 ≤ n → n ≤ 8 → 100 ≤ c → c ≤ 8000 → 0 < l →
        (calcRunTime n c cmin cmax l lmin lmax).T = some t →
        (calcRunTime n c cmin cmax l lmin lmax).Tmax = some M →
        M ∈ runTimeCands n c cmin cmax l lmin lmax ∧
          (∀ x ∈ runTimeCands n c cmin cmax l lmin lmax, x ≤ M) ∧ t < M) ∧
    (∀ (n : ℤ) (c : ℚ) (cmin cmax : Option ℚ) (l : ℚ) (lmin lmax : Option ℚ),
        1 ≤ n → n ≤ 8 → 100 ≤ c → c ≤ 8000 → 0 < l →
        ((calcRunTime n c cmin cmax l lmin lmax).Tmin = none ↔
          ¬ jsMin (runTimeCands n c cmin cmax l lmin lmax) <
            rd1 ((n : ℚ) * kCell * c / 1000 / l * 60)) ∧
        ((calcRunTime n c cmin cmax l lmin lmax).Tmax = none ↔
          ¬ rd1 ((n : ℚ) * kCell * c / 1000 / l * 60) <
            jsMax (runTimeCands n c cmin cmax l lmin lmax))) ∧
    (∀ (n : Option ℤ) (c cmin cmax tNom tmax : Option ℚ) (L m : ℚ),
        dtTimeDisplay n c cmin cmax tNom tmax = .loadAllowed L (some m) →
        m < L) := by
  refine ⟨?_, ?_, ?_, ?_⟩
  · intro n c cmin cmax l lmin lmax t m h1 h2 h3 h4 h5 hT hTmin
    rw [calcRunTime_valid n c cmin cmax l lmin lmax h1 h2 h3 h4 h5] at hT hTmin
    dsimp only at hT hTmin
    simp only [Option.some.injEq] at hT
    subst hT
    split at hTmin
    · rename_i hlt
      simp only [Option.some.injEq] at hTmin
      subst hTmin
      exact ⟨jsMin_mem _ (runTimeCands_ne_nil n c cmin cmax l lmin lmax),
        fun x hx => jsMin_le _ x hx, hlt⟩
    · exact absurd hTmin (by simp)
  · intro n c cmin cmax l lmin lmax t M h1 h2 h3 h4 h5 hT hTmax
    rw [calcRunTime_valid n c cmin cmax l lmin lmax h1 h2 h3 h4 h5] at hT hTmax
    dsimp only at hT hTmax
    simp only [Option.some.injEq] at hT
    subst hT
    split at hTmax
    · rename_i hlt
      simp only [Option.some.injEq] at hTmax
      subst hTmax
      exact ⟨jsMax_mem _ (runTimeCands_ne_nil n c cmin cmax l lmin lmax),
        fun x hx => le_jsMax _ x hx, hlt⟩
    · exact absurd hTmax (by simp)
  · intro n c cmin cmax l lmin lmax h1 h2 h3 h4 h5
    rw [calcRunTime_valid n c cmin cmax l lmin lmax h1 h2 h3 h4 h5]
    dsimp only
    constructor
    · split
      · rename_i hlt; simp [hlt]
      · rename_i hlt; simp [hlt]
    · split
      · rename_i hlt; simp [hlt]
      · rename_i hlt; simp [hlt]
  · intro n c cmin cmax tNom tmax L m h
    rcases n with _ | nv
    · simp [dtTimeDisplay] at h
    rcases c with _ | cv
    · simp [dtTimeDisplay] at h
    rcases tNom with _ | t
    · by_cases hok : nv < 1 ∨ 8 < nv ∨ cv < 100 ∨ 8000 < cv <;>
        simp [dtTimeDisplay, hok] at h
    by_cases hok : nv < 1 ∨ 8 < nv ∨ cv < 100 ∨ 8000 < cv
    · simp [dtTimeDisplay, hok] at h
    by_cases ht : t ≤ 0
    · simp [dtTimeDisplay, hok, ht] at h
    simp only [dtTimeDisplay, hok, ht, if_false, DtDisplay.loadAllowed.injEq,
      if_neg] at h
    obtain ⟨hL, hm⟩ := h
    split at hm
    · rename_i hlt
      simp only [Option.some.injEq] at hm
      subst hm
      subst hL
      exact hlt
    · simp at hm

/-- Claim C3 amended witness: for the C4 inputs the reported minimum 252
belongs to the candidate set and lies strictly below the nominal 302.4. -/
theorem c3_reported_extremes_amended_witness :
    (252 : ℚ) ∈ runTimeCands 7 2000 none none 10 (some 8) (some 12) ∧
    (252 : ℚ) < 1512 / 5 :=
  have h := c3_reported_extremes_amended.1 7 2000 none none 10 (some 8)
    (some 12) (1512 / 5) 252 (by norm_num) (by norm_num) (by norm_num)
    (by norm_num) (by norm_num)
    (by norm_num [calcRunTime, runTimeCands, eSet, lSet, kCell, rd1, jsMin,
      jsMax, round_eq, min_def, max_def, List.flatMap])
    (by norm_num [calcRunTime, runTimeCands, eSet, lSet, kCell, rd1, jsMin,
      jsMax, round_eq, min_def, max_def, List.flatMap])
  ⟨h.1, h.2.2⟩

/-- Claim C2 counterexample: the DfTime time-mode solver ignores the
present Cmax value entirely — its result for Cmax = 1150 equals its
result for absent Cmax — while the full-cross-product candidate set the
claim mandates yields a reported max of 24.8 for Cmax = 1150 and none
without it (inputs N=1, C=1000, T=10): so that mode does not extract its
extremes from the full cross product over every present value. -/
theorem c2_cross_product_counterexample :
    dtTimeDisplay (some 1) (some 1000) none (some 1150) (some 10) none =
        dtTimeDisplay (some 1) (some 1000) none none (some 10) none ∧
    dtTimeDisplay (some 1) (some 1000) none (some 1150) (some 10) none =
        .loadAllowed (108 / 5) none ∧
    specCrossLoadReport 1 1000 none (some 1150) 10 none =
        (108 / 5, none, some (124 / 5)) ∧
    specCrossLoadReport 1 1000 none none 10 none = (108 / 5, none, none) := by
  refine ⟨rfl, ?_, ?_, ?_⟩
  · norm_num [dtTimeDisplay, dtEmin, dtTmaxEff, kCell, rd1, round_eq]
  · norm_num [specCrossLoadReport, specCrossLoadCands, kCell, rd1, round_eq,
      jsMin, jsMax, min_def, max_def, List.flatMap]
  · norm_num [specCrossLoadReport, specCrossLoadCands, kCell, rd1, round_eq,
      jsMin, jsMax, min_def, max_def, List.flatMap]

/-- Claim C2 amended: the run-time solver `calcRunTime` does enumerate the
full cross product — its candidate list holds exactly the rounded
combinations of every present energy value with every present load value —
but the DfTime time-mode solver derives its only reported extreme from
the single pair of the min-side energy `Emin` and the max-side time
`Tmax`, never from cross-product enumeration. -/
theorem c2_cross_product_amended :
    (∀ (n : ℤ) (c : ℚ) (cmin cmax : Option ℚ) (l : ℚ) (lmin lmax : Option ℚ)
        (x : ℚ),
        x ∈ runTimeCands n c cmin cmax l lmin lmax ↔
          ∃ e ∈ eSet n c cmin cmax, ∃ lv ∈ lSet l lmin lmax,
            x = rd1 (e / lv * 60)) ∧
    (∀ (n : Option ℤ) (c cmin cmax tNom tmax : Option ℚ) (L m : ℚ),
        dtTimeDisplay n c cmin cmax tNom tmax = .loadAllowed L (some m) →
        ∃ (nv : ℤ) (cv t : ℚ), n = some nv ∧ c = some cv ∧ tNom = some t ∧
          m = rd1 (dtEmin nv cv cmin * 60 / dtTmaxEff t tmax)) := by
  constructor
  · intro n c cmin cmax l lmin lmax x
    simp only [runTimeCands, List.mem_flatMap, List.mem_map]
    constructor
    · rintro ⟨e, he, lv, hlv, rfl⟩
      exact ⟨e, he, lv, hlv, rfl⟩
    · rintro ⟨e, he, lv, hlv, rfl⟩
      exact ⟨e, he, lv, hlv, rfl⟩
  · intro n c cmin cmax tNom tmax L m h
    rcases n with _ | nv
    · simp [dtTimeDisplay] at h
    rcases c with _ | cv
    · simp [dtTimeDisplay] at h
    rcases tNom with _ | t
    · by_cases hok : nv < 1 ∨ 8 < nv ∨ cv < 100 ∨ 8000 < cv <;>
        simp [dtTimeDisplay, hok] at h
    by_cases hok : nv < 1 ∨ 8 < nv ∨ cv < 100 ∨ 8000 < cv
    · simp [dtTimeDisplay, hok] at h
    by_cases ht : t ≤ 0
    · simp [dtTimeDisplay, hok, ht] at h
    simp only [dtTimeDisplay, hok, ht, if_false, DtDisplay.loadAllowed.injEq,
      if_neg] at h
    obtain ⟨hL, hm⟩ := h
    split at hm
    · rename_i hlt
      simp only [Option.some.injEq] at hm
      exact ⟨nv, cv, t, rfl, rfl, rfl, hm.symm⟩
    · simp at hm

/-- Claim C2 amended witness: the shown extreme 5.4 of the time-mode
result at N=1, C=1000, Cmin=500, T=10, Tmax=20 is exactly the single-pair
value rd1(Emin * 60 / Tmax). -/
theorem c2_cross_product_amended_witness :
    dtTimeDisplay (some 1) (some 1000) (some 500) none (some 10) (some 20) =
      .loadAllowed (108 / 5) (some (27 / 5)) ∧
    (∃ (nv : ℤ) (cv t : ℚ), (some (1 : ℤ)) = some nv ∧
      (some (1000 : ℚ)) = some cv ∧ (some (10 : ℚ)) = some t ∧
      (27 / 5 : ℚ) = rd1 (dtEmin nv cv (some 500) * 60 / dtTmaxEff t (some 20))) :=
  ⟨by norm_num [dtTimeDisplay, dtEmin, dtTmaxEff, kCell, rd1, round_eq],
    c2_cross_product_amended.2 (some 1) (some 1000) (some 500) none (some 10)
      (some 20) (108 / 5) (27 / 5)
      (by norm_num [dtTimeDisplay, dtEmin, dtTmaxEff, kCell, rd1, round_eq])⟩

theorem dtUpdateResult_mode (s : DtState) : (dtUpdateResult s).mode = s.mode := by
  unfold dtUpdateResult
  repeat' split
  all_goals rfl

theorem dtSetMode_of_some (m : DtPath) (s : DtState) (p : DtPath)
    (h : s.mode = some p) : dtSetMode m s = s := by
  unfold dtSetMode
  rw [h]

theorem dtRecomputeIfLocked_mode (s : DtState) :
    (dtRecomputeIfLocked s).mode = s.mode := by
  unfold dtRecomputeIfLocked
  split
  · rw [dtUpdateResult_mode]
  · rfl

theorem dtRecomputeIfLoad_mode (s : DtState) :
    (dtRecomputeIfLoad s).mode = s.mode := by
  unfold dtRecomputeIfLoad
  split
  · rw [dtUpdateResult_mode]
  · rfl

theorem dtPackBlurTail_mode_of_some (entered : Bool) (s : DtState) (p : DtPath)
    (h : s.mode = some p) : (dtPackBlurTail entered s).mode = some p := by
  unfold dtPackBlurTail
  split
  · exact h
  · rw [dtRecomputeIfLocked_mode]
    split
    · rw [dtSetMode_of_some _ _ _ h]; exact h
    · exact h

theorem dtLoadBlurTail_mode_of_some (entered : Bool) (s : DtState) (p : DtPath)
    (h : s.mode = some p) : (dtLoadBlurTail entered s).mode = some p := by
  unfold dtLoadBlurTail
  rw [dtRecomputeIfLoad_mode]
  split
  · rw [dtSetMode_of_some _ _ _ h]; exact h
  · exact h

theorem tryAutoPopulateDtPack_mode (s : DtState) :
    (tryAutoPopulateDtPack s).mode = s.mode := by
  unfold tryAutoPopulateDtPack
  dsimp only
  repeat' split
  all_goals rfl

theorem dtLoadBlurTail_of_time (entered : Bool) (s : DtState)
    (h : s.mode = some DtPath.time) : dtLoadBlurTail entered s = s := by
  unfold dtLoadBlurTail
  have h1 : (if entered = true ∧ s.packLoadVisible = true
      then dtSetMode DtPath.load s else s) = s := by
    split
    · exact dtSetMode_of_some _ _ _ h
    · rfl
  rw [h1]
  unfold dtRecomputeIfLoad
  rw [if_neg (by rw [h]; simp)]

/-- Claim C5 counterexample: after run time 10 is supplied and a load
entry of 10 W locks the session to the load path, a subsequent valid PACK
entry of N = 2 leaves the lock in place but DOES change the displayed
result — the energy-only render becomes the Pack Solution render with the
computed capacity 232 mAh — contradicting the claim that an entry in the
other path's category never changes the displayed result. -/
theorem c5_solve_path_lock_counterexample :
    (dtStep (.lBlur (some 10)) (dtStep (.tBlur (some 10)) dtInit)).mode =
        some DtPath.load ∧
    (dtStep (.lBlur (some 10)) (dtStep (.tBlur (some 10)) dtInit)).display =
        .energyOnly (167 / 100) (167 / 100) ∧
    (dtStep (.nBlur (some 2))
        (dtStep (.lBlur (some 10)) (dtStep (.tBlur (some 10)) dtInit))).mode =
        some DtPath.load ∧
    (dtStep (.nBlur (some 2))
        (dtStep (.lBlur (some 10)) (dtStep (.tBlur (some 10)) dtInit))).display =
        .packSolutionFromN (167 / 100) (167 / 100) 2 232 ∧
    DtDisplay.packSolutionFromN (167 / 100) (167 / 100) 2 232 ≠
        DtDisplay.energyOnly (167 / 100) (167 / 100) := by
  refine ⟨?_, ?_, ?_, ?_, by simp⟩ <;>
    norm_num [dtStep, dtInit, dtEmptyCard, dtEmptyField, dtFieldCommit,
      dtTryAutoPopulateAll, tryAutoPopulateAll, deriveNom, deriveMin,
      deriveMax, srcVal, autoSet, autoClear, fmtLoad, dtLoadBlurTail,
      dtPackBlurTail, dtRecomputeIfLoad, dtRecomputeIfLocked, dtSetMode,
      dtUpdateResult, dtSummary, dtNOk, dtCOkUser, dtComputedC, dtComputedN,
      rd1, rd2, kCell, round_eq, tryAutoPopulateDtPack]

/-- Claim C5 amended: once Locked, no field-blur event changes or unlocks
the path — only the explicit page reset returns it to Unset — and in the
time-locked mode a load entry indeed leaves the displayed result
untouched; but after locking to the load path a valid PACK entry is
consumed by the locked path's N/C resolve step and can change the
displayed numbers without changing the path. -/
theorem c5_solve_path_lock_amended :
    (∀ (e : DtEvent) (s : DtState) (p : DtPath), e ≠ .reset →
        s.mode = some p → (dtStep e s).mode = some p) ∧
    (∀ s : DtState, (dtStep .reset s).mode = none) ∧
    (∀ (s : DtState) (v : Option ℚ), s.mode = some DtPath.time →
        (dtStep (.lBlur v) s).display = s.display ∧
        (dtStep (.lBlur v) s).mode = some DtPath.time) := by
  refine ⟨?_, ?_, ?_⟩
  · intro e s p hne h
    cases e with
    | tBlur v =>
        simp only [dtStep]
        split
        · exact h
        · exact h
    | nBlur v =>
        simp only [dtStep]
        split
        · exact h
        · exact dtPackBlurTail_mode_of_some _ _ p h
    | cBlur v =>
        simp only [dtStep]
        split
        · exact h
        · exact dtPackBlurTail_mode_of_some _ _ p
            (by rw [tryAutoPopulateDtPack_mode]; exact h)
    | cminBlur v =>
        simp only [dtStep]
        exact dtPackBlurTail_mode_of_some _ _ p
          (by rw [tryAutoPopulateDtPack_mode]; exact h)
    | cmaxBlur v =>
        simp only [dtStep]
        exact dtPackBlurTail_mode_of_some _ _ p
          (by rw [tryAutoPopulateDtPack_mode]; exact h)
    | lBlur v =>
        simp only [dtStep]
        exact dtLoadBlurTail_mode_of_some _ _ p h
    | lminBlur v =>
        simp only [dtStep]
        exact dtLoadBlurTail_mode_of_some _ _ p h
    | lmaxBlur v =>
        simp only [dtStep]
        exact dtLoadBlurTail_mode_of_some _ _ p h
    | reset => exact absurd rfl hne
  · intro s
    rfl
  · intro s v h
    simp only [dtStep]
    have hrw := dtLoadBlurTail_of_time
      ((dtTryAutoPopulateAll
        { s.card with L := dtFieldCommit s.card.L v }).L.value.isSome)
      { s with
        card := (dtTryAutoPopulateAll
          { s.card with L := dtFieldCommit s.card.L v }) } h
    rw [hrw]
    exact ⟨rfl, h⟩

/-- Claim C5 amended witness: a PACK blur on a load-locked state leaves
the lock on the load path. -/
theorem c5_solve_path_lock_amended_witness :
    (dtStep (.nBlur (some 2))
        { dtInit with mode := some DtPath.load }).mode = some DtPath.load :=
  c5_solve_path_lock_amended.1 (.nBlur (some 2))
    { dtInit with mode := some DtPath.load } DtPath.load (by simp) rfl

end BattCalc
